import Mathlib

/-
  Verification development for the MarlinKimbra-K40 motion core
  (src/MK/module/motion/planner.cpp and src/MK/module/motion/stepper.cpp).

  Shallow embedding conventions:
  * C float / double arithmetic is modelled by exact rational arithmetic (ℚ);
    float-to-unsigned-integer conversion (which truncates toward zero on
    non-negative values) is modelled by Int.floor, and ceil / floor calls in
    the source by Int.ceil / Int.floor.
  * unsigned integers are modelled by ℕ, signed ones by ℤ.
  * The build modelled is the plain cartesian one: no LASER, no COREXY/XZ,
    no ADVANCE, no COLOR_MIXING_EXTRUDER, single extruder, SLOWDOWN and the
    PREVENT_DANGEROUS_EXTRUDE guards disabled, no DUAL_X_CARRIAGE and no
    Z_DUAL_ENDSTOPS.  All of those are compile-time configuration switches.
  * Configuration macros whose values live outside the two source files
    (DROP_SEGMENTS, MAX_STEP_FREQUENCY, DOUBLE_STEP_FREQUENCY, F_CPU,
    the speed lookup tables) are parameters of the embedded functions.
-/

set_option maxHeartbeats 1000000

namespace MK

/-! ## Per-axis quadruples -/

/-- Per-axis rational quantity (X, Y, Z, E), used for delta_mm, speeds and
max_feedrate. -/
structure Q4 where
  x : ℚ
  y : ℚ
  z : ℚ
  e : ℚ
deriving DecidableEq

/-- Per-axis integer quantity (X, Y, Z, E) in steps, used for position[] and
target[]. -/
structure I4 where
  x : ℤ
  y : ℤ
  z : ℤ
  e : ℤ
deriving DecidableEq

/-! ## Trapezoid solver (planner.cpp lines 136-197) -/

/-- The fields of block_t consumed by calculate_trapezoid_for_block.
nominal_rate and step_event_count and acceleration_st are unsigned long in
block_t, hence ℕ here. -/
structure TrapBlockIn where
  nominal_rate : ℕ
  step_event_count : ℕ
  acceleration_st : ℕ
deriving DecidableEq

/-- The block fields written by calculate_trapezoid_for_block (lines 187-190).
accelerate_until and decelerate_after are stored from the int32_t
accelerate_steps / plateau computation, hence ℤ. -/
structure TrapOut where
  accelerate_until : ℤ
  decelerate_after : ℤ
  initial_rate : ℤ
  final_rate : ℤ
deriving DecidableEq

/-- planner.cpp lines 136-139: distance needed to accelerate between two
rates, with the acceleration == 0 guard returning 0. -/
def estimate_acceleration_distance (initial_rate target_rate acceleration : ℚ) : ℚ :=
  if acceleration = 0 then 0
  else (target_rate * target_rate - initial_rate * initial_rate) / (acceleration * 2)

/-- planner.cpp lines 146-149: ramp intersection point when the trapezoid has
no plateau, with the acceleration == 0 guard returning 0. -/
def intersection_distance (initial_rate final_rate acceleration distance : ℚ) : ℚ :=
  if acceleration = 0 then 0
  else (acceleration * 2 * distance - initial_rate * initial_rate + final_rate * final_rate)
    / (acceleration * 4)

/-- Line 154: initial_rate = ceil(nominal_rate * entry_factor), then line 158
NOLESS(initial_rate, 120). -/
def trap_initial_rate (b : TrapBlockIn) (entry_factor : ℚ) : ℤ :=
  max ⌈(b.nominal_rate : ℚ) * entry_factor⌉ 120

/-- Line 155: final_rate = ceil(nominal_rate * exit_factor), then line 159
NOLESS(final_rate, 120). -/
def trap_final_rate (b : TrapBlockIn) (exit_factor : ℚ) : ℤ :=
  max ⌈(b.nominal_rate : ℚ) * exit_factor⌉ 120

/-- Line 162: accelerate_steps = ceil(estimate_acceleration_distance
(initial_rate, nominal_rate, acceleration)). -/
def trap_accelerate_steps (b : TrapBlockIn) (entry_factor : ℚ) : ℤ :=
  ⌈estimate_acceleration_distance (trap_initial_rate b entry_factor) (b.nominal_rate : ℚ)
    (b.acceleration_st : ℚ)⌉

/-- Line 163: decelerate_steps = floor(estimate_acceleration_distance
(nominal_rate, final_rate, -acceleration)). -/
def trap_decelerate_steps (b : TrapBlockIn) (exit_factor : ℚ) : ℤ :=
  ⌊estimate_acceleration_distance (b.nominal_rate : ℚ) (trap_final_rate b exit_factor)
    (-(b.acceleration_st : ℚ))⌋

/-- Line 166: plateau_steps = step_event_count - accelerate_steps -
decelerate_steps. -/
def trap_plateau_steps (b : TrapBlockIn) (entry_factor exit_factor : ℚ) : ℤ :=
  (b.step_event_count : ℤ) - trap_accelerate_steps b entry_factor
    - trap_decelerate_steps b exit_factor

/-- planner.cpp lines 153-197, calculate_trapezoid_for_block, in the
non-busy case (the busy case leaves every output field unchanged and is
handled where referenced).  Lines 171-176: when plateau_steps < 0 the
accelerate_steps are recomputed from intersection_distance, clamped below by
0 (line 173) then above by step_event_count (line 174), and plateau_steps is
set to 0, so decelerate_after = accelerate_until. -/
def calculate_trapezoid_for_block (b : TrapBlockIn) (entry_factor exit_factor : ℚ) : TrapOut :=
  if trap_plateau_steps b entry_factor exit_factor < 0 then
    let a0 : ℤ := ⌈intersection_distance (trap_initial_rate b entry_factor)
      (trap_final_rate b exit_factor) (b.acceleration_st : ℚ) (b.step_event_count : ℚ)⌉
    let a1 : ℤ := min (max a0 0) (b.step_event_count : ℤ)
    { accelerate_until := a1
      decelerate_after := a1
      initial_rate := trap_initial_rate b entry_factor
      final_rate := trap_final_rate b exit_factor }
  else
    { accelerate_until := trap_accelerate_steps b entry_factor
      decelerate_after := trap_accelerate_steps b entry_factor
        + trap_plateau_steps b entry_factor exit_factor
      initial_rate := trap_initial_rate b entry_factor
      final_rate := trap_final_rate b exit_factor }

/-- planner.cpp lines 912 and 938 restricted to the inputs that matter:
inverse_second = feed_rate / millimeters and nominal_rate =
ceil(step_event_count * inverse_second).  Used to exhibit blocks whose
nominal_rate is below the 120 steps/s floor. -/
def plan_nominal_rate (step_event_count : ℕ) (feed_rate millimeters : ℚ) : ℤ :=
  ⌈(step_event_count : ℚ) * (feed_rate * (1 / millimeters))⌉

/-! ## Front-end step phase and drop check (planner.cpp lines 500-612,
1159-1169) -/

/-- The configuration data read by the step-computation phase of
plan_buffer_line. -/
structure PlanConfig where
  axis_steps_per_unit : Q4
  axis_steps_per_unit_e : ℚ
  volumetric_multiplier : ℚ
  extruder_multiplier : ℕ
  drop_segments : ℕ

/-- The block fields that the step phase of plan_buffer_line determines:
per-axis step counts (lines 598-606), the master count (line 607) and the
direction bits (lines 632-652). -/
structure PlanBlock where
  steps_x : ℕ
  steps_y : ℕ
  steps_z : ℕ
  steps_e : ℕ
  step_event_count : ℕ
  dir_x : Bool
  dir_y : Bool
  dir_z : Bool
  dir_e : Bool
deriving DecidableEq

/-- The process-wide planner state observable by later calls: position[]
(line 102), previous_speed[] and previous_nominal_speed (lines 103-104), and
the committed ring contents, modelled as the list of appended blocks (head
advance at line 1160 appends). -/
structure PlannerState where
  position : I4
  previous_speed : Q4
  previous_nominal_speed : ℚ
  blocks : List PlanBlock

/-- C lround: round half away from zero (used at lines 515-518 to convert
millimeters to absolute steps). -/
def lround (q : ℚ) : ℤ :=
  if q < 0 then -⌊-q + 1 / 2⌋ else ⌊q + 1 / 2⌋

/-- Lines 514-518: target[i] = lround(input * axis_steps_per_unit[i]). -/
def plan_target (cfg : PlanConfig) (x y z e : ℚ) : I4 :=
  { x := lround (x * cfg.axis_steps_per_unit.x)
    y := lround (y * cfg.axis_steps_per_unit.y)
    z := lround (z * cfg.axis_steps_per_unit.z)
    e := lround (e * cfg.axis_steps_per_unit_e) }

/-- Lines 598-606: block steps; steps[E] = labs(de) scaled by the volumetric
and percent extruder multipliers (float multiply truncated back into the
unsigned long field, then integer multiply, then integer divide by 100). -/
def plan_steps (cfg : PlanConfig) (st : PlannerState) (x y z e : ℚ) : ℕ × ℕ × ℕ × ℕ :=
  let t := plan_target cfg x y z e
  let de := t.e - st.position.e
  let se0 : ℕ := de.natAbs
  let se1 : ℕ := (⌊(se0 : ℚ) * cfg.volumetric_multiplier⌋).toNat
  let se2 : ℕ := se1 * cfg.extruder_multiplier
  ((t.x - st.position.x).natAbs, (t.y - st.position.y).natAbs,
    (t.z - st.position.z).natAbs, se2 / 100)

/-- Line 607: step_event_count = max(steps[X], max(steps[Y], max(steps[Z],
steps[E]))). -/
def plan_step_event_count (cfg : PlanConfig) (st : PlannerState) (x y z e : ℚ) : ℕ :=
  let s := plan_steps cfg st x y z e
  max s.1 (max s.2.1 (max s.2.2.1 s.2.2.2))

/-- plan_buffer_line (planner.cpp lines 485-1169) in the modelled build,
restricted to its observable state effect.  The speed / acceleration / jerk
pipeline of lines 817-1157 (which computes current_speed[] and
nominal_speed from the step deltas and feed rate using float sqrt) is
abstracted as the parameter pipe; the claims settled against this embedding
do not depend on its value.  Line 611: when step_event_count <=
DROP_SEGMENTS the function returns before the block slot becomes visible
(head advance, line 1160), before position[] is updated (line 1163) and
before previous_speed / previous_nominal_speed are updated (lines
1136-1137), so the state is returned unchanged. -/
def plan_buffer_line (cfg : PlanConfig) (pipe : I4 → ℚ → Q4 × ℚ)
    (st : PlannerState) (x y z e feed_rate : ℚ) : PlannerState :=
  let t := plan_target cfg x y z e
  let s := plan_steps cfg st x y z e
  let sec := plan_step_event_count cfg st x y z e
  if sec ≤ cfg.drop_segments then st
  else
    let d : I4 := { x := t.x - st.position.x, y := t.y - st.position.y,
                    z := t.z - st.position.z, e := t.e - st.position.e }
    let sp := pipe d feed_rate
    let nb : PlanBlock :=
      { steps_x := s.1
        steps_y := s.2.1
        steps_z := s.2.2.1
        steps_e := s.2.2.2
        step_event_count := sec
        dir_x := decide (d.x < 0)
        dir_y := decide (d.y < 0)
        dir_z := decide (d.z < 0)
        dir_e := decide (d.e < 0) }
    { position := t
      previous_speed := sp.1
      previous_nominal_speed := sp.2
      blocks := st.blocks ++ [nb] }

/-! ## Nominal speed and rate pipeline (planner.cpp lines 812-815, 909-938,
966-973, 1013-1018) used for the feed-rate monotonicity claim -/

/-- Lines 969-972 for one axis: current_speed[i] = delta_mm[i] *
inverse_second; cs = fabs(current_speed[i]); if (cs > max_feedrate[i])
speed_factor = min(speed_factor, max_feedrate[i] / cs). -/
def speed_factor_axis (inverse_second delta_mm max_feedrate speed_factor : ℚ) : ℚ :=
  let cs := |delta_mm * inverse_second|
  if max_feedrate < cs then min speed_factor (max_feedrate / cs) else speed_factor

/-- Lines 967-973: the speed factor after folding all four axes, starting
from 1.0. -/
def plan_speed_factor (inverse_second : ℚ) (delta_mm max_feedrate : Q4) : ℚ :=
  speed_factor_axis inverse_second delta_mm.e max_feedrate.e
    (speed_factor_axis inverse_second delta_mm.z max_feedrate.z
      (speed_factor_axis inverse_second delta_mm.y max_feedrate.y
        (speed_factor_axis inverse_second delta_mm.x max_feedrate.x 1)))

/-- The nominal_speed / nominal_rate computation of plan_buffer_line in the
modelled build (SLOWDOWN disabled):
line 812-815 NOLESS(feed_rate, min_feed) (min_feed is minimumfeedrate when
the block extrudes, mintravelfeedrate otherwise - fixed here because both
compared calls use the same move);
lines 909-912 inverse_second = feed_rate / millimeters;
line 937 nominal_speed = millimeters * inverse_second (a float);
line 938 nominal_rate = ceil(step_event_count * inverse_second) (stored in
an unsigned long);
lines 1014-1017: if the folded speed_factor < 1 both are scaled by it, the
rate through the implicit float-to-unsigned-long truncation. -/
def plan_speed_rate (millimeters : ℚ) (step_event_count : ℕ) (delta_mm max_feedrate : Q4)
    (min_feed feed_rate : ℚ) : ℚ × ℤ :=
  let feed := max feed_rate min_feed
  let inverse_second := feed * (1 / millimeters)
  let nominal_speed := millimeters * inverse_second
  let nominal_rate : ℤ := ⌈(step_event_count : ℚ) * inverse_second⌉
  let sf := plan_speed_factor inverse_second delta_mm max_feedrate
  if sf < 1 then (nominal_speed * sf, ⌊(nominal_rate : ℚ) * sf⌋)
  else (nominal_speed, nominal_rate)

/-! ## Timer period lookup (stepper.cpp lines 538-577) -/

/-- Configuration for calc_timer.  The two lookup tables live in
speed_lookuptable.h (outside the given sources), so they are parameters:
each maps a row index to the (base, gain) pair of 16-bit words stored in
that row.  min_rate_corr is F_CPU / 500000 (32 at 16 MHz). -/
structure TimerConfig where
  max_step_frequency : ℕ
  double_step_frequency : ℕ
  min_rate_corr : ℕ
  fast_table : ℕ → ℕ × ℕ
  slow_table : ℕ → ℕ × ℕ

/-- Lines 541-553: NOMORE(step_rate, MAX_STEP_FREQUENCY), then the
double / quad stepping branch; returns the reduced step_rate and
step_loops. -/
def calc_timer_rate_loops (cfg : TimerConfig) (step_rate : ℕ) : ℕ × ℕ :=
  let sr := min step_rate cfg.max_step_frequency
  if 2 * cfg.double_step_frequency < sr then ((sr >>> 2) &&& 0x3fff, 4)
  else if cfg.double_step_frequency < sr then ((sr >>> 1) &&& 0x7fff, 2)
  else (sr, 1)

/-- Lines 555-576: the table interpolation producing the timer period, and
the line 571-574 floor at 100 ticks.  MultiU16X8toH16 computes
(low_byte * gain) >> 8 with rounding from the dropped top bit; the
subtractions are 16-bit unsigned, modelled mod 65536. -/
def calc_timer_period (cfg : TimerConfig) (reduced_rate : ℕ) : ℕ :=
  let sr := max reduced_rate cfg.min_rate_corr - cfg.min_rate_corr
  let timer :=
    if 8 * 256 ≤ sr then
      let row := cfg.fast_table ((sr >>> 8) % 256)
      let sub := ((sr % 256) * row.2 + 128) >>> 8
      (row.1 % 65536 + 65536 - sub % 65536) % 65536
    else
      let row := cfg.slow_table (sr >>> 3)
      let sub := ((row.2 % 65536) * (sr % 8)) >>> 3
      (row.1 % 65536 + 65536 - sub % 65536) % 65536
  if timer < 100 then 100 else timer

/-- calc_timer (stepper.cpp lines 538-577): returns (timer, step_loops). -/
def calc_timer (cfg : TimerConfig) (step_rate : ℕ) : ℕ × ℕ :=
  let rl := calc_timer_rate_loops cfg step_rate
  (calc_timer_period cfg rl.1, rl.2)

/-! ## Endstop monitor (stepper.cpp lines 333-515) -/

/-- The endstop sample bits relevant to the X axis of a cartesian build
(bits X_MIN and X_MAX of current_endstop_bits / old_endstop_bits). -/
structure EndstopBitsX where
  x_min : Bool
  x_max : Bool
deriving DecidableEq

/-- The stepper state written by UPDATE_ENDSTOP for the X axis:
endstops_trigsteps[X_AXIS], bit X_MIN of endstop_hit_bits (the
_ENDSTOP_HIT(AXIS) macro at line 345 always sets the MIN bit of the axis),
step_events_completed, and old_endstop_bits. -/
structure EndstopStateX where
  endstops_trigsteps_x : ℤ
  hit_x_min : Bool
  step_events_completed : ℕ
  old_endstop_bits : EndstopBitsX
deriving DecidableEq

/-- UPDATE_ENDSTOP(X, MIN) (stepper.cpp lines 372-379): SET_ENDSTOP_BIT
samples the pin into current_endstop_bits; if the previous sample agreed
(TEST_ENDSTOP, line 353 two-sample debounce) and current_block steps the
axis, record trigsteps from count_position, set the hit bit and force
step_events_completed = step_event_count.  Afterwards (line 514)
old_endstop_bits = current_endstop_bits; the unpolled X_MAX bit of
current_endstop_bits stays 0 for this axis direction. -/
def update_endstop_x_min (reading : Bool) (steps_x step_event_count : ℕ)
    (count_position_x : ℤ) (st : EndstopStateX) : EndstopStateX :=
  let cur : EndstopBitsX := { x_min := reading, x_max := false }
  if (cur.x_min && st.old_endstop_bits.x_min) = true ∧ 0 < steps_x then
    { endstops_trigsteps_x := count_position_x
      hit_x_min := true
      step_events_completed := step_event_count
      old_endstop_bits := cur }
  else
    { st with old_endstop_bits := cur }

/-- The X-axis portion of update_endstops on a cartesian build (lines
387-410): the direction latch out_bits selects which limit is polled -
X_MIN when moving in the negative direction (TEST(out_bits, X_AXIS)),
X_MAX otherwise. -/
def update_endstops_x (out_bits_x : Bool) (read_x_min read_x_max : Bool)
    (steps_x step_event_count : ℕ) (count_position_x : ℤ)
    (st : EndstopStateX) : EndstopStateX :=
  if out_bits_x then
    update_endstop_x_min read_x_min steps_x step_event_count count_position_x st
  else
    -- UPDATE_ENDSTOP(X, MAX); _ENDSTOP_HIT(X) still sets the X_MIN hit bit
    let cur : EndstopBitsX := { x_min := false, x_max := read_x_max }
    if (cur.x_max && st.old_endstop_bits.x_max) = true ∧ 0 < steps_x then
      { endstops_trigsteps_x := count_position_x
        hit_x_min := true
        step_events_completed := step_event_count
        old_endstop_bits := cur }
    else
      { st with old_endstop_bits := cur }

/-! ## Stepper interrupt Bresenham loop (stepper.cpp lines 643-922) -/

/-- The block fields consumed by the Bresenham step loop. -/
structure IsrBlock where
  steps_x : ℕ
  steps_y : ℕ
  steps_z : ℕ
  steps_e : ℕ
  dir_x : Bool
  dir_y : Bool
  dir_z : Bool
  dir_e : Bool
  step_event_count : ℕ
deriving DecidableEq

/-- set_stepper_direction (lines 585-613): count_direction[axis] = -1 when
the out_bits bit for the axis is set, 1 otherwise. -/
def count_direction (dir_bit : Bool) : ℤ :=
  if dir_bit then -1 else 1

/-- Lines 671-673: the Bresenham counters are initialized to
-(step_event_count >> 1). -/
def bresenham_init (step_event_count : ℕ) : ℤ :=
  -((step_event_count >>> 1 : ℕ) : ℤ)

/-- One axis of the inner step loop: STEP_START (lines 757-759) adds
steps[axis] to the counter; STEP_END (lines 767-772) then, if the counter
is positive, subtracts step_event_count and moves count_position[axis] by
count_direction[axis].  The pin writes have no further state effect. -/
def axis_step (steps step_event_count : ℕ) (dir : ℤ) (cp : ℤ × ℤ) : ℤ × ℤ :=
  let c := cp.1 + (steps : ℤ)
  if 0 < c then (c - (step_event_count : ℤ), cp.2 + dir) else (c, cp.2)

/-- The stepper state traced by the claims: the four Bresenham counters,
count_position[] and step_events_completed. -/
structure StepperState where
  counter_x : ℤ
  counter_y : ℤ
  counter_z : ℤ
  counter_e : ℤ
  count_position : I4
  step_events_completed : ℕ
deriving DecidableEq

/-- One iteration of the inner step loop (lines 727-839, modelled build):
STEP_START / STEP_END for X, Y, Z, E, then step_events_completed++.  The
four axes read and write disjoint state. -/
def isr_inner_step (b : IsrBlock) (s : StepperState) : StepperState :=
  { counter_x := (axis_step b.steps_x b.step_event_count (count_direction b.dir_x)
      (s.counter_x, s.count_position.x)).1
    counter_y := (axis_step b.steps_y b.step_event_count (count_direction b.dir_y)
      (s.counter_y, s.count_position.y)).1
    counter_z := (axis_step b.steps_z b.step_event_count (count_direction b.dir_z)
      (s.counter_z, s.count_position.z)).1
    counter_e := (axis_step b.steps_e b.step_event_count (count_direction b.dir_e)
      (s.counter_e, s.count_position.e)).1
    count_position :=
      { x := (axis_step b.steps_x b.step_event_count (count_direction b.dir_x)
          (s.counter_x, s.count_position.x)).2
        y := (axis_step b.steps_y b.step_event_count (count_direction b.dir_y)
          (s.counter_y, s.count_position.y)).2
        z := (axis_step b.steps_z b.step_event_count (count_direction b.dir_z)
          (s.counter_z, s.count_position.z)).2
        e := (axis_step b.steps_e b.step_event_count (count_direction b.dir_e)
          (s.counter_e, s.count_position.e)).2 }
    step_events_completed := s.step_events_completed + 1 }

/-- The stepper state right after the block is latched (lines 668-684):
counters at -(step_event_count >> 1), step_events_completed = 0,
count_position[] at its pre-block value p. -/
def isr_initial_state (b : IsrBlock) (p : I4) : StepperState :=
  { counter_x := bresenham_init b.step_event_count
    counter_y := bresenham_init b.step_event_count
    counter_z := bresenham_init b.step_event_count
    counter_e := bresenham_init b.step_event_count
    count_position := p
    step_events_completed := 0 }

/-- Executing the block to retirement: the inner loop body runs (across
interrupts, step_loops iterations at a time) until step_events_completed
reaches step_event_count (lines 837-838, 917), i.e. exactly
step_event_count times. -/
def isr_run_block (b : IsrBlock) (p : I4) : StepperState :=
  (isr_inner_step b)^[b.step_event_count] (isr_initial_state b p)

/-! ## Helper lemmas for the trapezoid solver -/

theorem ceil_mul_le_of_le_one (n : ℕ) (f : ℚ) (h1 : f ≤ 1) :
    ⌈(n : ℚ) * f⌉ ≤ (n : ℤ) := by
  rw [Int.ceil_le]
  push_cast
  exact mul_le_of_le_one_right (by positivity) h1

theorem trap_initial_rate_le (b : TrapBlockIn) (ef : ℚ) (h1 : ef ≤ 1)
    (hnr : 120 ≤ b.nominal_rate) :
    trap_initial_rate b ef ≤ (b.nominal_rate : ℤ) :=
  max_le (ceil_mul_le_of_le_one _ _ h1) (by exact_mod_cast hnr)

theorem trap_final_rate_le (b : TrapBlockIn) (xf : ℚ) (h1 : xf ≤ 1)
    (hnr : 120 ≤ b.nominal_rate) :
    trap_final_rate b xf ≤ (b.nominal_rate : ℤ) :=
  max_le (ceil_mul_le_of_le_one _ _ h1) (by exact_mod_cast hnr)

theorem le_trap_initial_rate (b : TrapBlockIn) (ef : ℚ) :
    (120 : ℤ) ≤ trap_initial_rate b ef :=
  le_max_right _ _

theorem le_trap_final_rate (b : TrapBlockIn) (xf : ℚ) :
    (120 : ℤ) ≤ trap_final_rate b xf :=
  le_max_right _ _

theorem calculate_trapezoid_initial_rate_eq (b : TrapBlockIn) (ef xf : ℚ) :
    (calculate_trapezoid_for_block b ef xf).initial_rate = trap_initial_rate b ef := by
  unfold calculate_trapezoid_for_block
  split <;> rfl

theorem calculate_trapezoid_final_rate_eq (b : TrapBlockIn) (ef xf : ℚ) :
    (calculate_trapezoid_for_block b ef xf).final_rate = trap_final_rate b xf := by
  unfold calculate_trapezoid_for_block
  split <;> rfl

theorem trap_decelerate_steps_nonneg (b : TrapBlockIn) (xf : ℚ) (h1 : xf ≤ 1)
    (hnr : 120 ≤ b.nominal_rate) :
    0 ≤ trap_decelerate_steps b xf := by
  unfold trap_decelerate_steps estimate_acceleration_distance
  rcases eq_or_ne (b.acceleration_st : ℚ) 0 with h | h
  · simp [h]
  · rw [if_neg (by simpa using h)]
    have hfr : ((trap_final_rate b xf : ℤ) : ℚ) ≤ (b.nominal_rate : ℚ) := by
      exact_mod_cast trap_final_rate_le b xf h1 hnr
    have hfr0 : (0 : ℚ) ≤ ((trap_final_rate b xf : ℤ) : ℚ) := by
      have := le_trap_final_rate b xf
      exact_mod_cast le_trans (by norm_num) this
    have hnum : ((trap_final_rate b xf : ℤ) : ℚ) * ((trap_final_rate b xf : ℤ) : ℚ)
        - (b.nominal_rate : ℚ) * (b.nominal_rate : ℚ) ≤ 0 := by
      nlinarith
    have hden : -(b.acceleration_st : ℚ) * 2 ≤ 0 := by
      have h0 : (0 : ℚ) ≤ (b.acceleration_st : ℚ) := by positivity
      linarith
    have := div_nonneg_iff.mpr (Or.inr ⟨hnum, hden⟩)
    exact Int.le_floor.mpr (by exact_mod_cast this)

theorem trap_plateau_acc_ne_zero (b : TrapBlockIn) (ef xf : ℚ)
    (h : trap_plateau_steps b ef xf < 0) : (b.acceleration_st : ℚ) ≠ 0 := by
  intro hz
  apply absurd h
  unfold trap_plateau_steps trap_accelerate_steps trap_decelerate_steps
    estimate_acceleration_distance
  rw [if_pos hz, if_pos (by simpa using hz)]
  simp

/-! ## Claim C2: the trapezoid solver formulas -/

/-- Claim C2: for every block and entry / exit factor, calculate_trapezoid_
for_block sets initial_rate = ceil(nominal_rate * entry_factor) and
final_rate = ceil(nominal_rate * exit_factor), each raised to at least 120
steps per second, and whenever the computed plateau is negative it
recomputes accelerate_steps as ceil((2 * acc * step_event_count +
final_rate^2 - initial_rate^2) / (4 * acc)) clamped to [0,
step_event_count] and sets the plateau to zero (decelerate_after =
accelerate_until). -/
theorem calculate_trapezoid_spec (b : TrapBlockIn) (ef xf : ℚ) :
    (calculate_trapezoid_for_block b ef xf).initial_rate
        = max ⌈(b.nominal_rate : ℚ) * ef⌉ 120 ∧
    (calculate_trapezoid_for_block b ef xf).final_rate
        = max ⌈(b.nominal_rate : ℚ) * xf⌉ 120 ∧
    120 ≤ (calculate_trapezoid_for_block b ef xf).initial_rate ∧
    120 ≤ (calculate_trapezoid_for_block b ef xf).final_rate ∧
    (trap_plateau_steps b ef xf < 0 →
      (calculate_trapezoid_for_block b ef xf).accelerate_until
          = min (max ⌈(2 * (b.acceleration_st : ℚ) * (b.step_event_count : ℚ)
              + ((calculate_trapezoid_for_block b ef xf).final_rate : ℚ) ^ 2
              - ((calculate_trapezoid_for_block b ef xf).initial_rate : ℚ) ^ 2)
            / (4 * (b.acceleration_st : ℚ))⌉ 0) (b.step_event_count : ℤ) ∧
      (calculate_trapezoid_for_block b ef xf).decelerate_after
          = (calculate_trapezoid_for_block b ef xf).accelerate_until) := by
  refine ⟨by rw [calculate_trapezoid_initial_rate_eq]; rfl,
    by rw [calculate_trapezoid_final_rate_eq]; rfl,
    by rw [calculate_trapezoid_initial_rate_eq]; exact le_trap_initial_rate b ef,
    by rw [calculate_trapezoid_final_rate_eq]; exact le_trap_final_rate b xf, ?_⟩
  intro h
  have hacc := trap_plateau_acc_ne_zero b ef xf h
  have hout : calculate_trapezoid_for_block b ef xf =
      { accelerate_until := min (max ⌈intersection_distance (trap_initial_rate b ef)
          (trap_final_rate b xf) (b.acceleration_st : ℚ) (b.step_event_count : ℚ)⌉ 0)
          (b.step_event_count : ℤ)
        decelerate_after := min (max ⌈intersection_distance (trap_initial_rate b ef)
          (trap_final_rate b xf) (b.acceleration_st : ℚ) (b.step_event_count : ℚ)⌉ 0)
          (b.step_event_count : ℤ)
        initial_rate := trap_initial_rate b ef
        final_rate := trap_final_rate b xf } := by
    unfold calculate_trapezoid_for_block
    rw [if_pos h]
  rw [hout]
  refine ⟨?_, rfl⟩
  have hid : intersection_distance (trap_initial_rate b ef) (trap_final_rate b xf)
      (b.acceleration_st : ℚ) (b.step_event_count : ℚ)
      = (2 * (b.acceleration_st : ℚ) * (b.step_event_count : ℚ)
          + ((trap_final_rate b xf : ℤ) : ℚ) ^ 2 - ((trap_initial_rate b ef : ℤ) : ℚ) ^ 2)
        / (4 * (b.acceleration_st : ℚ)) := by
    unfold intersection_distance
    rw [if_neg hacc]
    ring_nf
  rw [hid]

/-- Witness for C2 at a concrete block with a negative plateau. -/
theorem calculate_trapezoid_spec_witness :
    trap_plateau_steps ⟨200, 10, 1⟩ (1/2) (1/2) < 0 ∧
    (calculate_trapezoid_for_block ⟨200, 10, 1⟩ (1/2) (1/2)).accelerate_until = 5 ∧
    (calculate_trapezoid_for_block ⟨200, 10, 1⟩ (1/2) (1/2)).decelerate_after
      = (calculate_trapezoid_for_block ⟨200, 10, 1⟩ (1/2) (1/2)).accelerate_until := by
  have hpl : trap_plateau_steps ⟨200, 10, 1⟩ (1/2) (1/2) < 0 := by
    simp only [trap_plateau_steps, trap_accelerate_steps, trap_decelerate_steps,
      trap_initial_rate, trap_final_rate, estimate_acceleration_distance]
    norm_num
  refine ⟨hpl, ?_,
    ((calculate_trapezoid_spec ⟨200, 10, 1⟩ (1/2) (1/2)).2.2.2.2 hpl).2⟩
  simp only [calculate_trapezoid_for_block, trap_plateau_steps, trap_accelerate_steps,
    trap_decelerate_steps, trap_initial_rate, trap_final_rate,
    estimate_acceleration_distance, intersection_distance]
  norm_num

/-! ## Claim C3: rate bounds after the solve -/

/-- Counterexample to claim C3 as stated: a block whose nominal_rate is 80
steps per second (producible by plan_buffer_line, e.g. 800 master steps at
feed_rate / millimeters = 1/10 per line 938) gets initial_rate = 120 >
nominal_rate from the floor of line 158, so initial_rate <= nominal_rate
fails without a precondition that nominal_rate be at least 120. -/
theorem trap_rate_floor_violates_nominal_bound :
    plan_nominal_rate 800 (1/10) 1 = 80 ∧
    (calculate_trapezoid_for_block ⟨80, 800, 64000⟩ 1 1).initial_rate = 120 ∧
    ¬((calculate_trapezoid_for_block ⟨80, 800, 64000⟩ 1 1).initial_rate
        ≤ ((⟨80, 800, 64000⟩ : TrapBlockIn).nominal_rate : ℤ)) := by
  have hceil : ⌈-(1/16 : ℚ)⌉ = (0 : ℤ) := by norm_num
  refine ⟨?_, ?_, ?_⟩
  · simp only [plan_nominal_rate]
    norm_num
  · simp only [calculate_trapezoid_for_block, trap_plateau_steps, trap_accelerate_steps,
      trap_decelerate_steps, trap_initial_rate, trap_final_rate,
      estimate_acceleration_distance, intersection_distance]
    norm_num [hceil]
  · simp only [calculate_trapezoid_for_block, trap_plateau_steps, trap_accelerate_steps,
      trap_decelerate_steps, trap_initial_rate, trap_final_rate,
      estimate_acceleration_distance, intersection_distance]
    norm_num [hceil]

/-- Claim C3 amended: the invariant 0 < initial_rate <= nominal_rate, 0 <
final_rate <= nominal_rate, both at least 120 steps per second, holds for
every solved block whose nominal_rate is itself at least 120 steps per
second (the 120 floor of lines 158-159 makes it fail otherwise). -/
theorem trapezoid_rates_bounded (b : TrapBlockIn) (ef xf : ℚ)
    (hef1 : ef ≤ 1) (hxf1 : xf ≤ 1) (hnr : 120 ≤ b.nominal_rate) :
    0 < (calculate_trapezoid_for_block b ef xf).initial_rate ∧
    (calculate_trapezoid_for_block b ef xf).initial_rate ≤ (b.nominal_rate : ℤ) ∧
    120 ≤ (calculate_trapezoid_for_block b ef xf).initial_rate ∧
    0 < (calculate_trapezoid_for_block b ef xf).final_rate ∧
    (calculate_trapezoid_for_block b ef xf).final_rate ≤ (b.nominal_rate : ℤ) ∧
    120 ≤ (calculate_trapezoid_for_block b ef xf).final_rate := by
  rw [calculate_trapezoid_initial_rate_eq, calculate_trapezoid_final_rate_eq]
  refine ⟨lt_of_lt_of_le (by norm_num) (le_trap_initial_rate b ef),
    trap_initial_rate_le b ef hef1 hnr, le_trap_initial_rate b ef,
    lt_of_lt_of_le (by norm_num) (le_trap_final_rate b xf),
    trap_final_rate_le b xf hxf1 hnr, le_trap_final_rate b xf⟩

/-- Witness for the amended C3 at a concrete block. -/
theorem trapezoid_rates_bounded_witness :
    ((1 : ℚ) ≤ 1 ∧ (1 : ℚ) / 80 ≤ 1 ∧ 120 ≤ (4800 : ℕ)) ∧
    (0 < (calculate_trapezoid_for_block ⟨4800, 800, 64000⟩ 1 (1/80)).initial_rate ∧
     (calculate_trapezoid_for_block ⟨4800, 800, 64000⟩ 1 (1/80)).initial_rate ≤ ((4800 : ℕ) : ℤ) ∧
     120 ≤ (calculate_trapezoid_for_block ⟨4800, 800, 64000⟩ 1 (1/80)).initial_rate ∧
     0 < (calculate_trapezoid_for_block ⟨4800, 800, 64000⟩ 1 (1/80)).final_rate ∧
     (calculate_trapezoid_for_block ⟨4800, 800, 64000⟩ 1 (1/80)).final_rate ≤ ((4800 : ℕ) : ℤ) ∧
     120 ≤ (calculate_trapezoid_for_block ⟨4800, 800, 64000⟩ 1 (1/80)).final_rate) :=
  ⟨by norm_num,
   trapezoid_rates_bounded ⟨4800, 800, 64000⟩ 1 (1/80) (by norm_num) (by norm_num) (by norm_num)⟩

/-! ## Claim C4: milestone ordering -/

/-- Counterexample to claim C4 as stated: with nominal_rate = 100 (below
the 120 floor), step_event_count = 5 and acceleration_st = 1000, the solve
at entry and exit factors 1 yields decelerate_after = 8 >
step_event_count = 5, so accelerate_until <= decelerate_after <=
step_event_count does not hold for blocks below the rate floor. -/
theorem trap_milestones_exceed_step_count :
    (calculate_trapezoid_for_block ⟨100, 5, 1000⟩ 1 1).decelerate_after = 8 ∧
    ¬((calculate_trapezoid_for_block ⟨100, 5, 1000⟩ 1 1).decelerate_after
        ≤ ((⟨100, 5, 1000⟩ : TrapBlockIn).step_event_count : ℤ)) := by
  have hceil : ⌈-(11/5 : ℚ)⌉ = (-2 : ℤ) := by norm_num [Int.ceil_eq_iff]
  constructor <;>
    · simp only [calculate_trapezoid_for_block, trap_plateau_steps, trap_accelerate_steps,
        trap_decelerate_steps, trap_initial_rate, trap_final_rate,
        estimate_acceleration_distance, intersection_distance]
      norm_num [hceil]

/-- Claim C4 amended: accelerate_until <= decelerate_after <=
step_event_count holds for entry and exit factors in [0, 1] provided
nominal_rate is at least the 120 steps per second floor (it can fail below
the floor, where decelerate_steps goes negative). -/
theorem trapezoid_milestones_ordered (b : TrapBlockIn) (ef xf : ℚ)
    (hxf1 : xf ≤ 1) (hnr : 120 ≤ b.nominal_rate) :
    (calculate_trapezoid_for_block b ef xf).accelerate_until
        ≤ (calculate_trapezoid_for_block b ef xf).decelerate_after ∧
    (calculate_trapezoid_for_block b ef xf).decelerate_after
        ≤ (b.step_event_count : ℤ) := by
  have hd := trap_decelerate_steps_nonneg b xf hxf1 hnr
  unfold calculate_trapezoid_for_block
  split
  · exact ⟨le_refl _, min_le_right _ _⟩
  · rename_i hpl
    push_neg at hpl
    constructor
    · exact le_add_of_nonneg_right hpl
    · show trap_accelerate_steps b ef + trap_plateau_steps b ef xf ≤ (b.step_event_count : ℤ)
      unfold trap_plateau_steps
      omega

/-- Witness for the amended C4 at a concrete block. -/
theorem trapezoid_milestones_ordered_witness :
    ((9 : ℚ) / 10 ≤ 1 ∧ 120 ≤ (2400 : ℕ)) ∧
    ((calculate_trapezoid_for_block ⟨2400, 600, 32000⟩ (1/3) (9/10)).accelerate_until
        ≤ (calculate_trapezoid_for_block ⟨2400, 600, 32000⟩ (1/3) (9/10)).decelerate_after ∧
     (calculate_trapezoid_for_block ⟨2400, 600, 32000⟩ (1/3) (9/10)).decelerate_after
        ≤ ((600 : ℕ) : ℤ)) :=
  ⟨by norm_num,
   trapezoid_milestones_ordered ⟨2400, 600, 32000⟩ (1/3) (9/10) (by norm_num) (by norm_num)⟩

/-! ## Claims C5 and C10: the drop check of plan_buffer_line -/

theorem plan_buffer_line_of_drop (cfg : PlanConfig) (pipe : I4 → ℚ → Q4 × ℚ)
    (st : PlannerState) (x y z e feed_rate : ℚ)
    (h : plan_step_event_count cfg st x y z e ≤ cfg.drop_segments) :
    plan_buffer_line cfg pipe st x y z e feed_rate = st := by
  unfold plan_buffer_line
  rw [if_pos h]

theorem plan_buffer_line_of_append (cfg : PlanConfig) (pipe : I4 → ℚ → Q4 × ℚ)
    (st : PlannerState) (x y z e feed_rate : ℚ)
    (h : ¬ plan_step_event_count cfg st x y z e ≤ cfg.drop_segments) :
    (plan_buffer_line cfg pipe st x y z e feed_rate).blocks.length
      = st.blocks.length + 1 := by
  unfold plan_buffer_line
  rw [if_neg h]
  simp

/-- Counterexample to claim C5 as stated: the source check (line 611) is
step_event_count <= DROP_SEGMENTS, not a strict comparison, so a move whose
step_event_count equals DROP_SEGMENTS exactly is discarded even though the
claim says any move with step_event_count >= DROP_SEGMENTS appends a block.
Here DROP_SEGMENTS = 1 and a one-step X move from the origin is dropped. -/
theorem plan_drop_at_exact_threshold :
    plan_step_event_count ⟨⟨1, 1, 1, 1⟩, 1, 1, 100, 1⟩
        ⟨⟨0, 0, 0, 0⟩, ⟨0, 0, 0, 0⟩, 0, []⟩ 1 0 0 0 = 1 ∧
    ¬(plan_step_event_count ⟨⟨1, 1, 1, 1⟩, 1, 1, 100, 1⟩
        ⟨⟨0, 0, 0, 0⟩, ⟨0, 0, 0, 0⟩, 0, []⟩ 1 0 0 0
      < (⟨⟨1, 1, 1, 1⟩, 1, 1, 100, 1⟩ : PlanConfig).drop_segments) ∧
    plan_buffer_line ⟨⟨1, 1, 1, 1⟩, 1, 1, 100, 1⟩ (fun _ _ => (⟨0, 0, 0, 0⟩, 0))
        ⟨⟨0, 0, 0, 0⟩, ⟨0, 0, 0, 0⟩, 0, []⟩ 1 0 0 0 30
      = ⟨⟨0, 0, 0, 0⟩, ⟨0, 0, 0, 0⟩, 0, []⟩ := by
  have hsec : plan_step_event_count ⟨⟨1, 1, 1, 1⟩, 1, 1, 100, 1⟩
      ⟨⟨0, 0, 0, 0⟩, ⟨0, 0, 0, 0⟩, 0, []⟩ 1 0 0 0 = 1 := by
    simp only [plan_step_event_count, plan_steps, plan_target, lround]
    norm_num
  refine ⟨hsec, by simp [hsec], ?_⟩
  exact plan_buffer_line_of_drop _ _ _ _ _ _ _ _ (le_of_eq hsec)

/-- Claim C5 amended: plan_buffer_line discards a move (its observable
state, including the ring contents, is returned unchanged) exactly when the
computed step_event_count is less than or equal to DROP_SEGMENTS; for any
input with step_event_count strictly greater than DROP_SEGMENTS a block is
appended. -/
theorem plan_buffer_line_drop_iff (cfg : PlanConfig) (pipe : I4 → ℚ → Q4 × ℚ)
    (st : PlannerState) (x y z e feed_rate : ℚ) :
    (plan_buffer_line cfg pipe st x y z e feed_rate = st
        ↔ plan_step_event_count cfg st x y z e ≤ cfg.drop_segments) ∧
    (cfg.drop_segments < plan_step_event_count cfg st x y z e →
      (plan_buffer_line cfg pipe st x y z e feed_rate).blocks.length
        = st.blocks.length + 1) := by
  constructor
  · constructor
    · intro heq
      by_contra hgt
      have hlen := plan_buffer_line_of_append cfg pipe st x y z e feed_rate hgt
      rw [heq] at hlen
      omega
    · exact plan_buffer_line_of_drop cfg pipe st x y z e feed_rate
  · intro hgt
    exact plan_buffer_line_of_append cfg pipe st x y z e feed_rate (not_le.mpr hgt)

/-! ## Claim C10: frame effect of a dropped move -/

/-- Claim C10: when plan_buffer_line discards a move because the
step_event_count check fails, it returns before advancing
block_buffer_head and before any update of position[], previous_speed[] or
previous_nominal_speed (line 611 precedes lines 1136-1137, 1160, 1163), so
the observable planner state is exactly as before the call and no block
becomes visible; consequently the sub-threshold displacement is absorbed
into the delta of the next appended move: running any further move from
the post-drop state is the same as running it from the original state. -/
theorem plan_buffer_line_drop_frame (cfg : PlanConfig) (pipe : I4 → ℚ → Q4 × ℚ)
    (st : PlannerState) (x y z e feed_rate : ℚ)
    (h : plan_step_event_count cfg st x y z e ≤ cfg.drop_segments) :
    plan_buffer_line cfg pipe st x y z e feed_rate = st ∧
    (plan_buffer_line cfg pipe st x y z e feed_rate).position = st.position ∧
    (plan_buffer_line cfg pipe st x y z e feed_rate).previous_speed = st.previous_speed ∧
    (plan_buffer_line cfg pipe st x y z e feed_rate).previous_nominal_speed
      = st.previous_nominal_speed ∧
    (plan_buffer_line cfg pipe st x y z e feed_rate).blocks = st.blocks ∧
    ∀ x2 y2 z2 e2 f2 : ℚ,
      plan_buffer_line cfg pipe (plan_buffer_line cfg pipe st x y z e feed_rate) x2 y2 z2 e2 f2
        = plan_buffer_line cfg pipe st x2 y2 z2 e2 f2 := by
  have hdrop : plan_buffer_line cfg pipe st x y z e feed_rate = st := by
    unfold plan_buffer_line
    rw [if_pos h]
  exact ⟨hdrop, by rw [hdrop], by rw [hdrop], by rw [hdrop], by rw [hdrop],
    fun x2 y2 z2 e2 f2 => by rw [hdrop]⟩

/-- Witness for C10 at a concrete sub-threshold move (DROP_SEGMENTS = 2,
a one-step X move) followed by a concrete second move. -/
theorem plan_buffer_line_drop_frame_witness :
    plan_step_event_count ⟨⟨1, 1, 1, 1⟩, 1, 1, 100, 2⟩
        ⟨⟨0, 0, 0, 0⟩, ⟨0, 0, 0, 0⟩, 0, []⟩ 1 0 0 0
      ≤ (⟨⟨1, 1, 1, 1⟩, 1, 1, 100, 2⟩ : PlanConfig).drop_segments ∧
    plan_buffer_line ⟨⟨1, 1, 1, 1⟩, 1, 1, 100, 2⟩ (fun _ _ => (⟨0, 0, 0, 0⟩, 0))
        (plan_buffer_line ⟨⟨1, 1, 1, 1⟩, 1, 1, 100, 2⟩ (fun _ _ => (⟨0, 0, 0, 0⟩, 0))
          ⟨⟨0, 0, 0, 0⟩, ⟨0, 0, 0, 0⟩, 0, []⟩ 1 0 0 0 30) 5 0 0 0 30
      = plan_buffer_line ⟨⟨1, 1, 1, 1⟩, 1, 1, 100, 2⟩ (fun _ _ => (⟨0, 0, 0, 0⟩, 0))
          ⟨⟨0, 0, 0, 0⟩, ⟨0, 0, 0, 0⟩, 0, []⟩ 5 0 0 0 30 := by
  have hsec : plan_step_event_count ⟨⟨1, 1, 1, 1⟩, 1, 1, 100, 2⟩
      ⟨⟨0, 0, 0, 0⟩, ⟨0, 0, 0, 0⟩, 0, []⟩ 1 0 0 0 = 1 := by
    simp only [plan_step_event_count, plan_steps, plan_target, lround]
    norm_num
  have hle : plan_step_event_count ⟨⟨1, 1, 1, 1⟩, 1, 1, 100, 2⟩
      ⟨⟨0, 0, 0, 0⟩, ⟨0, 0, 0, 0⟩, 0, []⟩ 1 0 0 0
      ≤ (⟨⟨1, 1, 1, 1⟩, 1, 1, 100, 2⟩ : PlanConfig).drop_segments := by
    rw [hsec]
    norm_num
  exact ⟨hle, (plan_buffer_line_drop_frame ⟨⟨1, 1, 1, 1⟩, 1, 1, 100, 2⟩
    (fun _ _ => (⟨0, 0, 0, 0⟩, 0)) ⟨⟨0, 0, 0, 0⟩, ⟨0, 0, 0, 0⟩, 0, []⟩
    1 0 0 0 30 hle).2.2.2.2.2 5 0 0 0 30⟩

/-! ## Claim C6: calc_timer -/

theorem calc_timer_period_ge_100 (cfg : TimerConfig) (reduced_rate : ℕ) :
    100 ≤ calc_timer_period cfg reduced_rate := by
  simp only [calc_timer_period]
  split <;> split <;> omega

/-- Claim C6: calc_timer sets step_loops = 4 and shifts the (clamped) step
rate right by 2 when it exceeds 2 * DOUBLE_STEP_FREQUENCY, sets step_loops
= 2 and shifts right by 1 when it exceeds DOUBLE_STEP_FREQUENCY, and
otherwise sets step_loops = 1; and for every input the returned timer
period is at least 100 ticks (lines 571-574).  The step rate is a 16-bit
unsigned value clamped to MAX_STEP_FREQUENCY first (line 541), whence the
two bounds hypotheses. -/
theorem calc_timer_spec (cfg : TimerConfig) (step_rate : ℕ)
    (hm : cfg.max_step_frequency < 65536)
    (hsr : step_rate ≤ cfg.max_step_frequency) :
    (2 * cfg.double_step_frequency < step_rate →
      calc_timer_rate_loops cfg step_rate = (step_rate >>> 2, 4)) ∧
    (cfg.double_step_frequency < step_rate →
      step_rate ≤ 2 * cfg.double_step_frequency →
      calc_timer_rate_loops cfg step_rate = (step_rate >>> 1, 2)) ∧
    (step_rate ≤ cfg.double_step_frequency →
      calc_timer_rate_loops cfg step_rate = (step_rate, 1)) ∧
    (∀ r : ℕ, 100 ≤ (calc_timer cfg r).1) := by
  have hmin : min step_rate cfg.max_step_frequency = step_rate := min_eq_left hsr
  have hmask2 : (step_rate >>> 2) &&& 0x3fff = step_rate >>> 2 := by
    rw [show (0x3fff : ℕ) = 2 ^ 14 - 1 by norm_num, Nat.and_pow_two_sub_one_eq_mod]
    have : step_rate >>> 2 < 2 ^ 14 := by
      rw [Nat.shiftRight_eq_div_pow]
      omega
    omega
  have hmask1 : (step_rate >>> 1) &&& 0x7fff = step_rate >>> 1 := by
    rw [show (0x7fff : ℕ) = 2 ^ 15 - 1 by norm_num, Nat.and_pow_two_sub_one_eq_mod]
    have : step_rate >>> 1 < 2 ^ 15 := by
      rw [Nat.shiftRight_eq_div_pow]
      omega
    omega
  refine ⟨?_, ?_, ?_, ?_⟩
  · intro h4
    simp only [calc_timer_rate_loops, hmin]
    rw [if_pos h4, hmask2]
  · intro h2a h2b
    simp only [calc_timer_rate_loops, hmin]
    rw [if_neg (by omega), if_pos h2a, hmask1]
  · intro h1
    simp only [calc_timer_rate_loops, hmin]
    rw [if_neg (by omega), if_neg (by omega)]
  · intro r
    exact calc_timer_period_ge_100 cfg _

/-- Witness for C6: a concrete configuration (MAX_STEP_FREQUENCY = 40000,
DOUBLE_STEP_FREQUENCY = 10000, F_CPU / 500000 = 32, constant stand-in
tables) and a step rate in the quad-stepping range. -/
theorem calc_timer_spec_witness :
    ((⟨40000, 10000, 32, fun _ => (2000, 500), fun _ => (8000, 1000)⟩ :
        TimerConfig).max_step_frequency < 65536 ∧
      25000 ≤ (⟨40000, 10000, 32, fun _ => (2000, 500), fun _ => (8000, 1000)⟩ :
        TimerConfig).max_step_frequency) ∧
    calc_timer_rate_loops
        ⟨40000, 10000, 32, fun _ => (2000, 500), fun _ => (8000, 1000)⟩ 25000
      = (25000 >>> 2, 4) ∧
    100 ≤ (calc_timer ⟨40000, 10000, 32, fun _ => (2000, 500), fun _ => (8000, 1000)⟩
        25000).1 := by
  have h := calc_timer_spec ⟨40000, 10000, 32, fun _ => (2000, 500), fun _ => (8000, 1000)⟩
    25000 (by norm_num) (by norm_num)
  exact ⟨⟨by norm_num, by norm_num⟩, h.1 (by norm_num), h.2.2.2 25000⟩

/-! ## Claim C7: endstop trigger handling -/

/-- Claim C7: when the X-min endstop is triggered while the block moves the
X axis in the negative (endstop) direction - the two-sample debounce holds
(current reading and previous sample both active) and current_block steps
the axis - the handler records endstops_trigsteps[X] = count_position[X],
sets the hit bit in endstop_hit_bits, and forces step_events_completed =
step_event_count so the block retires at the next phase check (line 917). -/
theorem endstop_trigger_records (out_bits_x read_x_min read_x_max : Bool)
    (steps_x step_event_count : ℕ) (count_position_x : ℤ) (st : EndstopStateX)
    (hdir : out_bits_x = true) (hread : read_x_min = true)
    (hold : st.old_endstop_bits.x_min = true) (hsteps : 0 < steps_x) :
    (update_endstops_x out_bits_x read_x_min read_x_max steps_x step_event_count
        count_position_x st).endstops_trigsteps_x = count_position_x ∧
    (update_endstops_x out_bits_x read_x_min read_x_max steps_x step_event_count
        count_position_x st).hit_x_min = true ∧
    (update_endstops_x out_bits_x read_x_min read_x_max steps_x step_event_count
        count_position_x st).step_events_completed = step_event_count := by
  subst hdir hread
  simp only [update_endstops_x, if_true, update_endstop_x_min]
  rw [if_pos ⟨by simp [hold], hsteps⟩]
  exact ⟨rfl, rfl, rfl⟩

/-- Witness for C7 at concrete values. -/
theorem endstop_trigger_records_witness :
    ((true : Bool) = true ∧ (true : Bool) = true ∧
      ((⟨0, false, 7, ⟨true, false⟩⟩ : EndstopStateX)).old_endstop_bits.x_min = true ∧
      0 < 400) ∧
    ((update_endstops_x true true false 400 800 (-123)
        ⟨0, false, 7, ⟨true, false⟩⟩).endstops_trigsteps_x = -123 ∧
     (update_endstops_x true true false 400 800 (-123)
        ⟨0, false, 7, ⟨true, false⟩⟩).hit_x_min = true ∧
     (update_endstops_x true true false 400 800 (-123)
        ⟨0, false, 7, ⟨true, false⟩⟩).step_events_completed = 800) :=
  ⟨⟨rfl, rfl, rfl, by norm_num⟩,
   endstop_trigger_records true true false 400 800 (-123)
     ⟨0, false, 7, ⟨true, false⟩⟩ rfl rfl rfl (by norm_num)⟩

/-! ## Claim C1: Bresenham closure at block retirement -/

theorem axis_step_closure (steps sec : ℕ) (dir : ℤ) (hs : steps ≤ sec) :
    ∀ (k : ℕ) (c p : ℤ), -(sec : ℤ) < c → c ≤ 0 →
      ∃ m : ℕ, (axis_step steps sec dir)^[k] (c, p)
          = (c + (k : ℤ) * (steps : ℤ) - (m : ℤ) * (sec : ℤ), p + (m : ℤ) * dir)
        ∧ -(sec : ℤ) < ((axis_step steps sec dir)^[k] (c, p)).1
        ∧ ((axis_step steps sec dir)^[k] (c, p)).1 ≤ 0 := by
  intro k
  induction k with
  | zero =>
    intro c p h1 h2
    exact ⟨0, by simp, by simpa, by simpa⟩
  | succ n ih =>
    intro c p h1 h2
    rw [Function.iterate_succ_apply]
    by_cases hpos : 0 < c + (steps : ℤ)
    · have hstep : axis_step steps sec dir (c, p) = (c + (steps : ℤ) - (sec : ℤ), p + dir) := by
        simp only [axis_step]
        rw [if_pos hpos]
      rw [hstep]
      have h1a : -(sec : ℤ) < c + (steps : ℤ) - (sec : ℤ) := by omega
      have h2a : c + (steps : ℤ) - (sec : ℤ) ≤ 0 := by omega
      obtain ⟨m, hm, hb1, hb2⟩ := ih (c + (steps : ℤ) - (sec : ℤ)) (p + dir) h1a h2a
      refine ⟨m + 1, ?_, hb1, hb2⟩
      rw [hm]
      simp only [Prod.mk.injEq]
      constructor <;> push_cast <;> ring
    · have hstep : axis_step steps sec dir (c, p) = (c + (steps : ℤ), p) := by
        simp only [axis_step]
        rw [if_neg hpos]
      rw [hstep]
      have h1a : -(sec : ℤ) < c + (steps : ℤ) := by omega
      have h2a : c + (steps : ℤ) ≤ 0 := by omega
      obtain ⟨m, hm, hb1, hb2⟩ := ih (c + (steps : ℤ)) p h1a h2a
      refine ⟨m, ?_, hb1, hb2⟩
      rw [hm]
      simp only [Prod.mk.injEq]
      refine ⟨?_, trivial⟩
      push_cast
      ring

theorem axis_step_final (steps sec : ℕ) (dir : ℤ) (hs : steps ≤ sec) (hsec : 0 < sec)
    (c0 p0 : ℤ) (hc1 : -(sec : ℤ) < c0) (hc2 : c0 ≤ 0) :
    ((axis_step steps sec dir)^[sec] (c0, p0)).2 = p0 + (steps : ℤ) * dir := by
  obtain ⟨m, hm, hb1, hb2⟩ := axis_step_closure steps sec dir hs sec c0 p0 hc1 hc2
  rw [hm] at hb1 hb2
  simp only at hb1 hb2
  have hkey : (sec : ℤ) * ((steps : ℤ) - (m : ℤ))
      = (c0 + (sec : ℤ) * (steps : ℤ) - (m : ℤ) * (sec : ℤ)) - c0 := by ring
  have hsz : (0 : ℤ) < (sec : ℤ) := by exact_mod_cast hsec
  have hub : (sec : ℤ) * ((steps : ℤ) - (m : ℤ)) < (sec : ℤ) * 1 := by
    rw [hkey, mul_one]
    omega
  have hlb : (sec : ℤ) * (-1) < (sec : ℤ) * ((steps : ℤ) - (m : ℤ)) := by
    rw [hkey]
    omega
  have hub2 : (steps : ℤ) - (m : ℤ) < 1 := lt_of_mul_lt_mul_left (by linarith [hub]) (le_of_lt hsz)
  have hlb2 : (-1 : ℤ) < (steps : ℤ) - (m : ℤ) := by
    by_contra hcon
    push_neg at hcon
    nlinarith
  have hme : (m : ℤ) = (steps : ℤ) := by omega
  rw [hm]
  simp only
  rw [hme]

theorem isr_proj_x (b : IsrBlock) (k : ℕ) (s : StepperState) :
    (((isr_inner_step b)^[k] s).counter_x, ((isr_inner_step b)^[k] s).count_position.x)
      = (axis_step b.steps_x b.step_event_count (count_direction b.dir_x))^[k]
          (s.counter_x, s.count_position.x) := by
  induction k generalizing s with
  | zero => rfl
  | succ n ih =>
    rw [Function.iterate_succ_apply, Function.iterate_succ_apply, ih]
    rfl

theorem isr_proj_y (b : IsrBlock) (k : ℕ) (s : StepperState) :
    (((isr_inner_step b)^[k] s).counter_y, ((isr_inner_step b)^[k] s).count_position.y)
      = (axis_step b.steps_y b.step_event_count (count_direction b.dir_y))^[k]
          (s.counter_y, s.count_position.y) := by
  induction k generalizing s with
  | zero => rfl
  | succ n ih =>
    rw [Function.iterate_succ_apply, Function.iterate_succ_apply, ih]
    rfl

theorem isr_proj_z (b : IsrBlock) (k : ℕ) (s : StepperState) :
    (((isr_inner_step b)^[k] s).counter_z, ((isr_inner_step b)^[k] s).count_position.z)
      = (axis_step b.steps_z b.step_event_count (count_direction b.dir_z))^[k]
          (s.counter_z, s.count_position.z) := by
  induction k generalizing s with
  | zero => rfl
  | succ n ih =>
    rw [Function.iterate_succ_apply, Function.iterate_succ_apply, ih]
    rfl

theorem isr_proj_e (b : IsrBlock) (k : ℕ) (s : StepperState) :
    (((isr_inner_step b)^[k] s).counter_e, ((isr_inner_step b)^[k] s).count_position.e)
      = (axis_step b.steps_e b.step_event_count (count_direction b.dir_e))^[k]
          (s.counter_e, s.count_position.e) := by
  induction k generalizing s with
  | zero => rfl
  | succ n ih =>
    rw [Function.iterate_succ_apply, Function.iterate_succ_apply, ih]
    rfl

theorem isr_completed (b : IsrBlock) (k : ℕ) (s : StepperState) :
    ((isr_inner_step b)^[k] s).step_events_completed = s.step_events_completed + k := by
  induction k generalizing s with
  | zero => rfl
  | succ n ih =>
    rw [Function.iterate_succ_apply, ih]
    simp only [isr_inner_step]
    omega

theorem bresenham_init_bounds (sec : ℕ) (hsec : 0 < sec) :
    -(sec : ℤ) < bresenham_init sec ∧ bresenham_init sec ≤ 0 := by
  unfold bresenham_init
  rw [Nat.shiftRight_one]
  have hlt : sec / 2 < sec := Nat.div_lt_self hsec (by norm_num)
  constructor
  · push_cast
    omega
  · push_cast
    omega

theorem steps_mul_count_direction (steps : ℕ) (bit : Bool) :
    (steps : ℤ) * count_direction bit = if bit then -(steps : ℤ) else (steps : ℤ) := by
  cases bit <;> simp [count_direction]

/-- Claim C1: for every block executed by the stepper interrupt with
Bresenham counters initialized to -(step_event_count >> 1) (lines 671-673),
when the block retires (step_events_completed reaches step_event_count,
lines 837-838 and 917), each count_position axis has changed by exactly
steps[axis] in the positive direction when the direction bit for that axis
is clear, and by exactly -steps[axis] when it is set.  The hypotheses
record that each steps[axis] is at most step_event_count (line 607 makes
step_event_count the maximum of the axis steps) and that the block is
non-empty (the drop check of line 611 guarantees it). -/
theorem bresenham_block_closure (b : IsrBlock) (p : I4)
    (hx : b.steps_x ≤ b.step_event_count) (hy : b.steps_y ≤ b.step_event_count)
    (hz : b.steps_z ≤ b.step_event_count) (he : b.steps_e ≤ b.step_event_count)
    (hsec : 0 < b.step_event_count) :
    (isr_run_block b p).count_position.x
        = p.x + (if b.dir_x then -(b.steps_x : ℤ) else (b.steps_x : ℤ)) ∧
    (isr_run_block b p).count_position.y
        = p.y + (if b.dir_y then -(b.steps_y : ℤ) else (b.steps_y : ℤ)) ∧
    (isr_run_block b p).count_position.z
        = p.z + (if b.dir_z then -(b.steps_z : ℤ) else (b.steps_z : ℤ)) ∧
    (isr_run_block b p).count_position.e
        = p.e + (if b.dir_e then -(b.steps_e : ℤ) else (b.steps_e : ℤ)) ∧
    (isr_run_block b p).step_events_completed = b.step_event_count := by
  obtain ⟨hc1, hc2⟩ := bresenham_init_bounds b.step_event_count hsec
  refine ⟨?_, ?_, ?_, ?_, ?_⟩
  · have hp2 : ((isr_inner_step b)^[b.step_event_count] (isr_initial_state b p)).count_position.x
        = ((axis_step b.steps_x b.step_event_count (count_direction b.dir_x))^[b.step_event_count]
            (bresenham_init b.step_event_count, p.x)).2 :=
      congrArg Prod.snd (isr_proj_x b b.step_event_count (isr_initial_state b p))
    show ((isr_inner_step b)^[b.step_event_count] (isr_initial_state b p)).count_position.x = _
    rw [hp2, axis_step_final _ _ _ hx hsec _ _ hc1 hc2, steps_mul_count_direction]
  · have hp2 : ((isr_inner_step b)^[b.step_event_count] (isr_initial_state b p)).count_position.y
        = ((axis_step b.steps_y b.step_event_count (count_direction b.dir_y))^[b.step_event_count]
            (bresenham_init b.step_event_count, p.y)).2 :=
      congrArg Prod.snd (isr_proj_y b b.step_event_count (isr_initial_state b p))
    show ((isr_inner_step b)^[b.step_event_count] (isr_initial_state b p)).count_position.y = _
    rw [hp2, axis_step_final _ _ _ hy hsec _ _ hc1 hc2, steps_mul_count_direction]
  · have hp2 : ((isr_inner_step b)^[b.step_event_count] (isr_initial_state b p)).count_position.z
        = ((axis_step b.steps_z b.step_event_count (count_direction b.dir_z))^[b.step_event_count]
            (bresenham_init b.step_event_count, p.z)).2 :=
      congrArg Prod.snd (isr_proj_z b b.step_event_count (isr_initial_state b p))
    show ((isr_inner_step b)^[b.step_event_count] (isr_initial_state b p)).count_position.z = _
    rw [hp2, axis_step_final _ _ _ hz hsec _ _ hc1 hc2, steps_mul_count_direction]
  · have hp2 : ((isr_inner_step b)^[b.step_event_count] (isr_initial_state b p)).count_position.e
        = ((axis_step b.steps_e b.step_event_count (count_direction b.dir_e))^[b.step_event_count]
            (bresenham_init b.step_event_count, p.e)).2 :=
      congrArg Prod.snd (isr_proj_e b b.step_event_count (isr_initial_state b p))
    show ((isr_inner_step b)^[b.step_event_count] (isr_initial_state b p)).count_position.e = _
    rw [hp2, axis_step_final _ _ _ he hsec _ _ hc1 hc2, steps_mul_count_direction]
  · rw [isr_run_block, isr_completed]
    simp [isr_initial_state]

/-- Witness for C1: a concrete five-event block moving X by +5, Y by -3,
Z by +2 and E by 0 from count_position (10, 20, 30, 40). -/
theorem bresenham_block_closure_witness :
    ((5 : ℕ) ≤ 5 ∧ (3 : ℕ) ≤ 5 ∧ (2 : ℕ) ≤ 5 ∧ (0 : ℕ) ≤ 5 ∧ (0 : ℕ) < 5) ∧
    ((isr_run_block ⟨5, 3, 2, 0, false, true, false, false, 5⟩
        ⟨10, 20, 30, 40⟩).count_position.x = 15 ∧
     (isr_run_block ⟨5, 3, 2, 0, false, true, false, false, 5⟩
        ⟨10, 20, 30, 40⟩).count_position.y = 17 ∧
     (isr_run_block ⟨5, 3, 2, 0, false, true, false, false, 5⟩
        ⟨10, 20, 30, 40⟩).count_position.z = 32 ∧
     (isr_run_block ⟨5, 3, 2, 0, false, true, false, false, 5⟩
        ⟨10, 20, 30, 40⟩).count_position.e = 40 ∧
     (isr_run_block ⟨5, 3, 2, 0, false, true, false, false, 5⟩
        ⟨10, 20, 30, 40⟩).step_events_completed = 5) := by
  have h := bresenham_block_closure ⟨5, 3, 2, 0, false, true, false, false, 5⟩
    ⟨10, 20, 30, 40⟩ (by norm_num) (by norm_num) (by norm_num) (by norm_num) (by norm_num)
  refine ⟨⟨by norm_num, by norm_num, by norm_num, by norm_num, by norm_num⟩, ?_⟩
  simpa using h

/-! ## Claim C8: feed-rate monotonicity of nominal_speed and nominal_rate -/

theorem speed_factor_axis_le_one (is dmm mf sf : ℚ) (h1 : sf ≤ 1) :
    speed_factor_axis is dmm mf sf ≤ 1 := by
  simp only [speed_factor_axis]
  split
  · exact le_trans (min_le_left _ _) h1
  · exact h1

/-- The value F * sf after one axis of the clamp fold, in closed form:
unchanged for an axis with no motion, otherwise capped by millimeters *
max_feedrate[i] / |delta_mm[i]| (which is independent of the feed rate). -/
theorem speed_factor_axis_mul (mm dmm mf F sf : ℚ) (hmm : 0 < mm) (hmf : 0 ≤ mf)
    (hF : 0 < F) (hsf1 : sf ≤ 1) :
    F * speed_factor_axis (F * (1 / mm)) dmm mf sf
      = if dmm = 0 then F * sf else min (F * sf) (mm * mf / |dmm|) := by
  simp only [speed_factor_axis]
  rcases eq_or_ne dmm 0 with hd | hd
  · subst hd
    rw [if_pos rfl]
    rw [if_neg (by simpa using not_lt.mpr hmf)]
  · rw [if_neg hd]
    have his : (0 : ℚ) < F * (1 / mm) := by positivity
    have hcs : |dmm * (F * (1 / mm))| = |dmm| * (F * (1 / mm)) := by
      rw [abs_mul, abs_of_pos his]
    have habs : (0 : ℚ) < |dmm| := abs_pos.mpr hd
    by_cases hlt : mf < |dmm * (F * (1 / mm))|
    · rw [if_pos hlt, mul_min_of_nonneg _ _ (le_of_lt hF)]
      congr 1
      rw [hcs]
      field_simp
      ring
    · rw [if_neg hlt]
      rw [hcs] at hlt
      push_neg at hlt
      rw [eq_comm, min_eq_left]
      have hmm0 : mm ≠ 0 := ne_of_gt hmm
      have hFle : F ≤ mm * mf / |dmm| := by
        rw [le_div_iff₀ habs]
        have h2 : |dmm| * F / mm ≤ mf := by
          calc |dmm| * F / mm = |dmm| * (F * (1 / mm)) := by ring
            _ ≤ mf := hlt
        calc F * |dmm| = |dmm| * F / mm * mm := by field_simp; ring
          _ ≤ mf * mm := mul_le_mul_of_nonneg_right h2 (le_of_lt hmm)
          _ = mm * mf := by ring
      calc F * sf ≤ F * 1 := by nlinarith
        _ = F := mul_one F
        _ ≤ mm * mf / |dmm| := hFle

theorem speed_factor_axis_mul_mono (mm dmm mf F G sfF sfG : ℚ)
    (hmm : 0 < mm) (hmf : 0 ≤ mf)
    (hFpos : 0 < F) (hGpos : 0 < G)
    (hsfF : sfF ≤ 1) (hsfG : sfG ≤ 1)
    (hmono : F * sfF ≤ G * sfG) :
    F * speed_factor_axis (F * (1 / mm)) dmm mf sfF
      ≤ G * speed_factor_axis (G * (1 / mm)) dmm mf sfG := by
  rw [speed_factor_axis_mul mm dmm mf F sfF hmm hmf hFpos hsfF,
    speed_factor_axis_mul mm dmm mf G sfG hmm hmf hGpos hsfG]
  rcases eq_or_ne dmm 0 with hd | hd
  · rw [if_pos hd, if_pos hd]
    exact hmono
  · rw [if_neg hd, if_neg hd]
    exact min_le_min hmono (le_refl _)

theorem plan_speed_factor_mul_mono (mm : ℚ) (dmm mf : Q4) (F G : ℚ)
    (hmm : 0 < mm) (hmfx : 0 ≤ mf.x) (hmfy : 0 ≤ mf.y) (hmfz : 0 ≤ mf.z) (hmfe : 0 ≤ mf.e)
    (hFpos : 0 < F) (hFG : F ≤ G) :
    F * plan_speed_factor (F * (1 / mm)) dmm mf
      ≤ G * plan_speed_factor (G * (1 / mm)) dmm mf := by
  have hGpos : (0 : ℚ) < G := lt_of_lt_of_le hFpos hFG
  have t1F : speed_factor_axis (F * (1 / mm)) dmm.x mf.x 1 ≤ 1 :=
    speed_factor_axis_le_one _ _ _ _ le_rfl
  have t1G : speed_factor_axis (G * (1 / mm)) dmm.x mf.x 1 ≤ 1 :=
    speed_factor_axis_le_one _ _ _ _ le_rfl
  have m1 : F * speed_factor_axis (F * (1 / mm)) dmm.x mf.x 1
      ≤ G * speed_factor_axis (G * (1 / mm)) dmm.x mf.x 1 :=
    speed_factor_axis_mul_mono mm dmm.x mf.x F G 1 1 hmm hmfx
      hFpos hGpos le_rfl le_rfl (by nlinarith)
  have t2F := speed_factor_axis_le_one (F * (1 / mm)) dmm.y mf.y _ t1F
  have t2G := speed_factor_axis_le_one (G * (1 / mm)) dmm.y mf.y _ t1G
  have m2 := speed_factor_axis_mul_mono mm dmm.y mf.y F G _ _ hmm hmfy
    hFpos hGpos t1F t1G m1
  have t3F := speed_factor_axis_le_one (F * (1 / mm)) dmm.z mf.z _ t2F
  have t3G := speed_factor_axis_le_one (G * (1 / mm)) dmm.z mf.z _ t2G
  have m3 := speed_factor_axis_mul_mono mm dmm.z mf.z F G _ _ hmm hmfz
    hFpos hGpos t2F t2G m2
  exact speed_factor_axis_mul_mono mm dmm.e mf.e F G _ _ hmm hmfe
    hFpos hGpos t3F t3G m3

theorem plan_speed_factor_le_one (is : ℚ) (dmm mf : Q4) :
    plan_speed_factor is dmm mf ≤ 1 := by
  unfold plan_speed_factor
  exact speed_factor_axis_le_one _ _ _ _ (speed_factor_axis_le_one _ _ _ _
    (speed_factor_axis_le_one _ _ _ _ (speed_factor_axis_le_one _ _ _ _ le_rfl)))

/-- The nominal_speed output of the pipeline equals (feed after the floor)
times the folded speed factor. -/
theorem plan_speed_rate_speed_eq (mm : ℚ) (sec : ℕ) (dmm mf : Q4) (minf f : ℚ)
    (hmm : 0 < mm) :
    (plan_speed_rate mm sec dmm mf minf f).1
      = max f minf * plan_speed_factor (max f minf * (1 / mm)) dmm mf := by
  simp only [plan_speed_rate]
  have hmm0 : mm ≠ 0 := ne_of_gt hmm
  have hns : mm * (max f minf * (1 / mm)) = max f minf := by field_simp
  split
  · rw [hns]
  · rename_i hge
    push_neg at hge
    have h1 : plan_speed_factor (max f minf * (1 / mm)) dmm mf = 1 :=
      le_antisymm (plan_speed_factor_le_one _ _ _) hge
    rw [hns, h1, mul_one]

/-- Counterexample to claim C8 as stated: two single-axis X moves of 1 mm
(21 master steps, delta_mm = (1,0,0,0)) with max_feedrate[X] = 1/2 mm/s.
At feed_rate 1/2 the clamp is inactive and nominal_rate = ceil(21/2) = 11;
at the larger feed_rate 11/21 the clamp scales the already-ceiled rate by
(1/2)/(11/21) and the float-to-unsigned truncation of line 1017 gives
floor(11 * 21/22) = 10 < 11, so nominal_rate decreases although feed_rate
increased.  nominal_speed is 1/2 in both calls. -/
theorem nominal_rate_not_monotone :
    (1 / 2 : ℚ) < 11 / 21 ∧
    (plan_speed_rate 1 21 ⟨1, 0, 0, 0⟩ ⟨1/2, 1000, 1000, 1000⟩ 0 (1/2)).2 = 11 ∧
    (plan_speed_rate 1 21 ⟨1, 0, 0, 0⟩ ⟨1/2, 1000, 1000, 1000⟩ 0 (11/21)).2 = 10 ∧
    ¬((plan_speed_rate 1 21 ⟨1, 0, 0, 0⟩ ⟨1/2, 1000, 1000, 1000⟩ 0 (1/2)).2
        ≤ (plan_speed_rate 1 21 ⟨1, 0, 0, 0⟩ ⟨1/2, 1000, 1000, 1000⟩ 0 (11/21)).2) ∧
    (plan_speed_rate 1 21 ⟨1, 0, 0, 0⟩ ⟨1/2, 1000, 1000, 1000⟩ 0 (1/2)).1
      = (plan_speed_rate 1 21 ⟨1, 0, 0, 0⟩ ⟨1/2, 1000, 1000, 1000⟩ 0 (11/21)).1 := by
  have hA : (plan_speed_rate 1 21 ⟨1, 0, 0, 0⟩ ⟨1/2, 1000, 1000, 1000⟩ 0 (1/2))
      = (1/2, 11) := by
    have hc : ⌈(21 : ℚ) / 2⌉ = (11 : ℤ) := by norm_num [Int.ceil_eq_iff]
    simp only [plan_speed_rate, plan_speed_factor, speed_factor_axis]
    norm_num [abs_of_nonneg]
    norm_num [hc]
  have hB : (plan_speed_rate 1 21 ⟨1, 0, 0, 0⟩ ⟨1/2, 1000, 1000, 1000⟩ 0 (11/21))
      = (1/2, 10) := by
    have hf : ⌊(21 : ℚ) / 2⌋ = (10 : ℤ) := by norm_num [Int.floor_eq_iff]
    simp only [plan_speed_rate, plan_speed_factor, speed_factor_axis]
    norm_num [abs_of_nonneg, hf]
  rw [hA, hB]
  norm_num

/-- Claim C8 amended: with the same start state, target and configuration,
a larger feed_rate never yields a smaller nominal_speed (clamp and floors
included); and it never yields a smaller nominal_rate provided the per-axis
speed-factor clamp is inactive at the larger feed (the clamp path can lower
the integer nominal_rate through the float-to-unsigned truncation of line
1017, as the counterexample shows). -/
theorem nominal_speed_rate_monotone (mm : ℚ) (sec : ℕ) (dmm mf : Q4) (minf fA fB : ℚ)
    (hmm : 0 < mm) (hmfx : 0 ≤ mf.x) (hmfy : 0 ≤ mf.y) (hmfz : 0 ≤ mf.z) (hmfe : 0 ≤ mf.e)
    (hfA : 0 < fA) (hAB : fA ≤ fB) :
    (plan_speed_rate mm sec dmm mf minf fA).1 ≤ (plan_speed_rate mm sec dmm mf minf fB).1 ∧
    ((|dmm.x * (max fB minf * (1 / mm))| ≤ mf.x ∧
      |dmm.y * (max fB minf * (1 / mm))| ≤ mf.y ∧
      |dmm.z * (max fB minf * (1 / mm))| ≤ mf.z ∧
      |dmm.e * (max fB minf * (1 / mm))| ≤ mf.e) →
      (plan_speed_rate mm sec dmm mf minf fA).2
        ≤ (plan_speed_rate mm sec dmm mf minf fB).2) := by
  have hFpos : (0 : ℚ) < max fA minf := lt_of_lt_of_le hfA (le_max_left _ _)
  have hFG : max fA minf ≤ max fB minf := max_le_max hAB le_rfl
  have hGpos : (0 : ℚ) < max fB minf := lt_of_lt_of_le hFpos hFG
  have hinv : (0 : ℚ) < 1 / mm := by positivity
  have hisFG : max fA minf * (1 / mm) ≤ max fB minf * (1 / mm) :=
    mul_le_mul_of_nonneg_right hFG (le_of_lt hinv)
  constructor
  · rw [plan_speed_rate_speed_eq mm sec dmm mf minf fA hmm,
      plan_speed_rate_speed_eq mm sec dmm mf minf fB hmm]
    exact plan_speed_factor_mul_mono mm dmm mf _ _ hmm hmfx hmfy hmfz hmfe hFpos hFG
  · intro hcl
    obtain ⟨hcx, hcy, hcz, hce⟩ := hcl
    have habsmono : ∀ d : ℚ,
        |d * (max fA minf * (1 / mm))| ≤ |d * (max fB minf * (1 / mm))| := by
      intro d
      have h1 : |d * (max fA minf * (1 / mm))| = |d| * (max fA minf * (1 / mm)) := by
        rw [abs_mul, abs_of_pos (mul_pos hFpos hinv)]
      have h2 : |d * (max fB minf * (1 / mm))| = |d| * (max fB minf * (1 / mm)) := by
        rw [abs_mul, abs_of_pos (mul_pos hGpos hinv)]
      rw [h1, h2]
      exact mul_le_mul_of_nonneg_left hisFG (abs_nonneg d)
    have hsfA : plan_speed_factor (max fA minf * (1 / mm)) dmm mf = 1 := by
      simp only [plan_speed_factor, speed_factor_axis]
      rw [if_neg (not_lt.mpr (le_trans (habsmono dmm.x) hcx)),
        if_neg (not_lt.mpr (le_trans (habsmono dmm.y) hcy)),
        if_neg (not_lt.mpr (le_trans (habsmono dmm.z) hcz)),
        if_neg (not_lt.mpr (le_trans (habsmono dmm.e) hce))]
    have hsfB : plan_speed_factor (max fB minf * (1 / mm)) dmm mf = 1 := by
      simp only [plan_speed_factor, speed_factor_axis]
      rw [if_neg (not_lt.mpr hcx), if_neg (not_lt.mpr hcy),
        if_neg (not_lt.mpr hcz), if_neg (not_lt.mpr hce)]
    simp only [plan_speed_rate]
    rw [hsfA, hsfB]
    rw [if_neg (by norm_num), if_neg (by norm_num)]
    show ⌈(sec : ℚ) * (max fA minf * (1 / mm))⌉ ≤ ⌈(sec : ℚ) * (max fB minf * (1 / mm))⌉
    exact Int.ceil_le_ceil (mul_le_mul_of_nonneg_left hisFG (by positivity))

/-- Witness for the amended C8: two single-axis 1 mm moves at feeds 2 and
3 mm/s with max_feedrate 300, where neither clamps. -/
theorem nominal_speed_rate_monotone_witness :
    ((0 : ℚ) < 1 ∧ (0 : ℚ) ≤ 300 ∧ (0 : ℚ) < 2 ∧ (2 : ℚ) ≤ 3 ∧
      |(1 : ℚ) * (max (3 : ℚ) 0 * (1 / 1))| ≤ 300) ∧
    (plan_speed_rate 1 80 ⟨1, 0, 0, 0⟩ ⟨300, 300, 300, 300⟩ 0 2).1
      ≤ (plan_speed_rate 1 80 ⟨1, 0, 0, 0⟩ ⟨300, 300, 300, 300⟩ 0 3).1 ∧
    (plan_speed_rate 1 80 ⟨1, 0, 0, 0⟩ ⟨300, 300, 300, 300⟩ 0 2).2
      ≤ (plan_speed_rate 1 80 ⟨1, 0, 0, 0⟩ ⟨300, 300, 300, 300⟩ 0 3).2 := by
  have h := nominal_speed_rate_monotone 1 80 ⟨1, 0, 0, 0⟩ ⟨300, 300, 300, 300⟩ 0 2 3
    (by norm_num) (by norm_num) (by norm_num) (by norm_num) (by norm_num)
    (by norm_num) (by norm_num)
  refine ⟨⟨by norm_num, by norm_num, by norm_num, by norm_num, by norm_num⟩,
    h.1, h.2 ⟨by norm_num, by norm_num, by norm_num, by norm_num⟩⟩

end MK
